import Mathlib

/-!
Verification of the lapsify time-lapse processor.

Shallow embedding of the core logic of `src/src/main.rs` (the `lapsify`
CLI) and proofs about the frozen claims.

Modelling conventions:

* Rust `f32` values are modelled by `FNum`: exact rationals extended with
  the IEEE-754 special values `nan`, `inf` and `ninf`.  Finite arithmetic
  is exact (rounding of `f32` is abstracted away: every numeric scenario
  used in a theorem below was checked to be exact in `f32` as well), while
  division by zero, NaN propagation and the saturating `as u8` / `as u32`
  casts follow the IEEE-754 / Rust semantics, which is what the claims
  about degenerate inputs hinge on.
* Crop resolution (`apply_adjustments`, lines 872-918) only ever handles
  finite values, so it is modelled directly over `ℚ`.
* Rust `usize`/`u32` values are `ℕ` with explicit `% 2 ^ 32` where the
  source performs `u32` wrap-around arithmetic, and explicit saturation in
  the `as u32` / `as u8` casts.
* File-system reads, the `image` crate decoder, the file writer and the
  transcendental `f32::powf` are external collaborators; they enter the
  embedding as function parameters.
* `DynamicImage`/`RgbImage` is modelled by `Image`: dimensions plus a
  total pixel function returning an RGB triple of `u8` values (as `ℕ`).
-/

deriving instance DecidableEq for Except

/-- Floor of a non-negative rational as a natural number, written out on
the numerator and denominator so that it evaluates inside the kernel
(`Nat.floor` on `ℚ` does not reduce under `decide`). -/
def ratFloorNat (q : ℚ) : ℕ := q.num.toNat / q.den

/-! ### String helpers

Structural-recursion counterparts of the standard string operations the
source uses (`str::split`, `str::trim`, `ends_with`, `to_lowercase`, …),
written over the character list of the string so that they evaluate
inside the kernel. -/

/-- Split a character list at every occurrence of `sep` (the pieces do
not contain `sep`; `n` separators yield `n + 1` pieces). -/
def splitCharsAux (sep : Char) : List Char → List Char → List (List Char)
  | [], acc => [acc.reverse]
  | ch :: rest, acc =>
      if ch = sep then acc.reverse :: splitCharsAux sep rest []
      else splitCharsAux sep rest (ch :: acc)

/-- Model of `str::split(sep)` for a one-character separator. -/
def strSplitOnChar (sep : Char) (s : String) : List String :=
  (splitCharsAux sep s.data []).map (fun cs => ⟨cs⟩)

/-- Model of `str::ends_with(c)` for a one-character suffix. -/
def strLastIs (c : Char) (s : String) : Bool :=
  match s.data.getLast? with
  | some d => d == c
  | none => false

/-- Model of `str::starts_with(c)` for a one-character prefix. -/
def strHeadIs (c : Char) (s : String) : Bool :=
  match s.data with
  | d :: _ => d == c
  | [] => false

/-- Drop the last character. -/
def strDropLastChar (s : String) : String := ⟨s.data.dropLast⟩

/-- Drop the first character. -/
def strDropHead (s : String) : String := ⟨s.data.drop 1⟩

/-- Model of `str::trim`: remove leading and trailing whitespace. -/
def strTrim (s : String) : String :=
  ⟨((s.data.dropWhile Char.isWhitespace).reverse.dropWhile Char.isWhitespace).reverse⟩

/-- Model of `str::to_lowercase` (ASCII, which is all the source compares). -/
def strToLower (s : String) : String := ⟨s.data.map Char.toLower⟩

/-- Model of `str::is_empty`. -/
def strIsEmpty (s : String) : Bool := s.data.isEmpty

/-- Lexicographic order on character lists (the byte order `Vec::sort`
uses on `PathBuf`s, restricted to the unicode-free paths of the model). -/
def charListLe : List Char → List Char → Bool
  | [], _ => true
  | _ :: _, [] => false
  | chx :: xs, chy :: ys =>
      if chx < chy then true
      else if chy < chx then false
      else charListLe xs ys

/-- The path order used to sort the discovered files. -/
def pathLe (s t : String) : Prop := charListLe s.data t.data = true

instance : DecidableRel pathLe := fun s t => by
  unfold pathLe
  infer_instance

/-- Join string pieces with a `.` separator (for `Path::file_stem`). -/
def joinWithDot (parts : List String) : String :=
  match parts with
  | [] => ""
  | p :: ps => ps.foldl (fun acc q => acc ++ "." ++ q) p

/-! ## A model of `f32`: exact rationals plus IEEE special values -/

/-- Model of a Rust `f32` value: a finite (exact) rational, `+∞`, `-∞` or
NaN.  Signed zero is not distinguished. -/
inductive FNum where
  | fin : ℚ → FNum
  | inf : FNum
  | ninf : FNum
  | nan : FNum
deriving DecidableEq, Repr

namespace FNum

/-- IEEE-754 addition (finite arithmetic exact). -/
def add : FNum → FNum → FNum
  | nan, _ => nan
  | _, nan => nan
  | fin a, fin b => fin (a + b)
  | fin _, inf => inf
  | fin _, ninf => ninf
  | inf, fin _ => inf
  | ninf, fin _ => ninf
  | inf, inf => inf
  | ninf, ninf => ninf
  | inf, ninf => nan
  | ninf, inf => nan

/-- IEEE-754 negation. -/
def neg : FNum → FNum
  | fin a => fin (-a)
  | inf => ninf
  | ninf => inf
  | nan => nan

/-- IEEE-754 subtraction. -/
def sub (a b : FNum) : FNum := add a (neg b)

/-- IEEE-754 multiplication; `0 * ∞ = NaN`. -/
def mul : FNum → FNum → FNum
  | nan, _ => nan
  | _, nan => nan
  | fin a, fin b => fin (a * b)
  | fin a, inf => if a = 0 then nan else if 0 < a then inf else ninf
  | fin a, ninf => if a = 0 then nan else if 0 < a then ninf else inf
  | inf, fin b => if b = 0 then nan else if 0 < b then inf else ninf
  | ninf, fin b => if b = 0 then nan else if 0 < b then ninf else inf
  | inf, inf => inf
  | inf, ninf => ninf
  | ninf, inf => ninf
  | ninf, ninf => inf

/-- IEEE-754 division; `0/0 = NaN`, `x/0 = ±∞` for `x ≠ 0` (zero is
treated as positive: signed zero is not modelled). -/
def div : FNum → FNum → FNum
  | nan, _ => nan
  | _, nan => nan
  | fin a, fin b =>
      if b = 0 then (if a = 0 then nan else if 0 < a then inf else ninf)
      else fin (a / b)
  | fin _, inf => fin 0
  | fin _, ninf => fin 0
  | inf, fin b => if 0 ≤ b then inf else ninf
  | ninf, fin b => if 0 ≤ b then ninf else inf
  | inf, inf => nan
  | inf, ninf => nan
  | ninf, inf => nan
  | ninf, ninf => nan

/-- Rust `!=` on `f32`: true whenever either operand is NaN. -/
def fne : FNum → FNum → Bool
  | nan, _ => true
  | _, nan => true
  | fin a, fin b => decide (a ≠ b)
  | inf, inf => false
  | ninf, ninf => false
  | _, _ => true

/-- Rust `<` on `f32`: false whenever either operand is NaN. -/
def flt : FNum → FNum → Bool
  | nan, _ => false
  | _, nan => false
  | fin a, fin b => decide (a < b)
  | fin _, inf => true
  | fin _, ninf => false
  | inf, _ => false
  | ninf, ninf => false
  | ninf, _ => true

/-- Rust `f32::clamp(self, lo, hi)`: `lo` if `self < lo`, `hi` if
`self > hi`, otherwise `self` (hence NaN stays NaN). -/
def clampF (x lo hi : FNum) : FNum :=
  if flt x lo then lo else if flt hi x then hi else x

/-- Rust `as u8` cast from `f32`: NaN maps to 0, truncation toward zero,
saturation at the bounds of `u8`. -/
def toU8 : FNum → ℕ
  | nan => 0
  | inf => 255
  | ninf => 0
  | fin q => if q < 0 then 0 else min (ratFloorNat q) 255

/-- Rust `f32::powi` (for the natural exponents used by the Bezier blend):
iterated IEEE multiplication. -/
def powi (x : FNum) : ℕ → FNum
  | 0 => fin 1
  | k + 1 => mul x (powi x k)

end FNum

/-! ## Keyframe interpolation (`src/src/main.rs` lines 225-271) -/

/-- Embeds `binomial_coefficient` (lines 258-271): the iterative
`result = result * (n - i) / (i + 1)` loop over `usize` arithmetic with
truncating division, exactly as in the source. -/
def binomialCoefficient (n k : ℕ) : ℕ :=
  if n < k then 0
  else if k = 0 ∨ k = n then 1
  else (List.range k).foldl (fun result i => result * (n - i) / (i + 1)) 1

/-- Embeds `bezier_interpolate` (lines 242-254): Bernstein-polynomial blend
`Σ C(n,i) · Pᵢ · (1-t)^(n-i) · tⁱ`, with the same left-associated
multiplication order as the source. -/
def bezierInterpolate (controlPoints : List FNum) (t : FNum) : FNum :=
  let n := controlPoints.length - 1
  if n = 0 then controlPoints.getD 0 .nan
  else
    (controlPoints.enum).foldl
      (fun result p =>
        FNum.add result
          (FNum.mul
            (FNum.mul (FNum.mul (.fin (binomialCoefficient n p.1)) p.2)
              (FNum.powi (FNum.sub (.fin 1) t) (n - p.1)))
            (FNum.powi t p.1)))
      (.fin 0)

/-- Embeds `interpolate_value` (lines 225-237).  Only a timeline of length 1 is
special-cased; for longer timelines `t = frame_index / (total_frames - 1)`
is computed unconditionally (an IEEE division, so `total_frames = 1`
divides by zero).  `total_frames - 1` is `usize` subtraction; the
`getD … nan` defaults are never reached on the non-empty timelines the
program constructs (Rust would panic on an empty one). -/
def interpolateValue (values : List FNum) (frameIndex totalFrames : ℕ) : FNum :=
  if values.length = 1 then values.getD 0 .nan
  else if values.length = 2 then
    let t := FNum.div (.fin frameIndex) (.fin ((totalFrames - 1 : ℕ) : ℚ))
    FNum.add (values.getD 0 .nan)
      (FNum.mul (FNum.sub (values.getD 1 .nan) (values.getD 0 .nan)) t)
  else
    let t := FNum.div (.fin frameIndex) (.fin ((totalFrames - 1 : ℕ) : ℚ))
    bezierInterpolate values t

/-! ## Images and adjustment settings -/

/-- Model of a decoded RGB8 image: dimensions plus a total pixel function
returning `(r, g, b)` with each channel a `u8` value (`ℕ ≤ 255`). -/
structure Image where
  width : ℕ
  height : ℕ
  pix : ℕ → ℕ → ℕ × ℕ × ℕ

/-- All channels of every pixel are `u8` values.  (`DynamicImage::to_rgb8`
guarantees this in the source; the model carries it as a predicate.) -/
def Image.Wellformed (img : Image) : Prop :=
  ∀ x y, (img.pix x y).1 ≤ 255 ∧ (img.pix x y).2.1 ≤ 255 ∧ (img.pix x y).2.2 ≤ 255

/-- Embeds `struct ProcessingError(String)` (line 15). -/
structure ProcessingError where
  msg : String
deriving DecidableEq, Repr

/-- Embeds `struct ImageAdjustments` (lines 31-38): one timeline per parameter
plus the optional crop descriptor string. -/
structure ImageAdjustments where
  exposure : List FNum
  brightness : List FNum
  contrast : List FNum
  saturation : List FNum
  crop : Option String

/-- Embeds `ImageAdjustments::default` (lines 44-54). -/
def defaultAdjustments : ImageAdjustments :=
  { exposure := [.fin 0], brightness := [.fin 0], contrast := [.fin 1],
    saturation := [.fin 1], crop := none }

/-- Embeds `ImageAdjustments::get_values_at_frame` (lines 56-65):
`(exposure, brightness, contrast, saturation)` at a frame. -/
def getValuesAtFrame (adjustments : ImageAdjustments) (frameIndex totalFrames : ℕ) :
    FNum × FNum × FNum × FNum :=
  (interpolateValue adjustments.exposure frameIndex totalFrames,
   interpolateValue adjustments.brightness frameIndex totalFrames,
   interpolateValue adjustments.contrast frameIndex totalFrames,
   interpolateValue adjustments.saturation frameIndex totalFrames)

/-! ## Crop parsing (`src/src/main.rs` lines 76-113) -/

/-- Embeds `struct CropParams` (lines 76-82): the four parsed `f32` fields of a
`width:height:x:y` descriptor (always finite, hence `ℚ`). -/
structure CropParams where
  width : ℚ
  height : ℚ
  x : ℚ
  y : ℚ
deriving DecidableEq, Repr

/-- Numeric value of a digit string. -/
def natOfDigits (s : String) : ℕ :=
  s.data.foldl (fun acc c => acc * 10 + (c.toNat - 48)) 0

/-- Model of Rust `str::parse::<f32>` restricted to plain decimal
notation (optional sign, digits, optional fractional part).  The value is
kept exact in `ℚ`; the final rounding of `f32` parsing is abstracted
away. -/
def parseDecimal (s : String) : Option ℚ :=
  let neg : Bool := strHeadIs '-' s
  let body : String :=
    if strHeadIs '-' s || strHeadIs '+' s then strDropHead s else s
  let mk : ℚ → Option ℚ := fun q => some (if neg then -q else q)
  match strSplitOnChar '.' body with
  | [intPart] =>
      if !strIsEmpty intPart && intPart.data.all Char.isDigit then
        mk (natOfDigits intPart)
      else none
  | [intPart, fracPart] =>
      if (intPart.data.all Char.isDigit && fracPart.data.all Char.isDigit)
          && !(strIsEmpty intPart && strIsEmpty fracPart) then
        mk ((natOfDigits intPart : ℚ) +
          (natOfDigits fracPart : ℚ) / ((10 : ℚ) ^ fracPart.length))
      else none
  | _ => none

/-- Embeds `parse_crop_value` (lines 98-113): a `%`-suffixed field must parse and
lie in `[0, 100]`; a bare field may be any number (negative values are
offsets from the right/bottom edge).  Note the numeric value is returned
with the `%` marker discarded. -/
def parseCropValue (input : String) : Except String ℚ :=
  let input := strTrim input
  if strLastIs '%' input then
    match parseDecimal (strDropLastChar input) with
    | none => .error ("Invalid percentage value: " ++ input)
    | some percentage =>
        if percentage < 0 ∨ 100 < percentage then
          .error ("Percentage must be between 0 and 100: " ++ input)
        else .ok percentage
  else
    match parseDecimal input with
    | none => .error ("Invalid pixel value: " ++ input)
    | some pixels => .ok pixels

/-- Embeds `parse_crop_string` (lines 84-96): exactly four `:`-separated fields,
each parsed by `parse_crop_value` in order. -/
def parseCropString (input : String) : Except String CropParams :=
  let parts := strSplitOnChar ':' input
  if parts.length ≠ 4 then
    .error ("Crop string must have 4 parts (width:height:x:y), got "
      ++ toString parts.length ++ " parts")
  else do
    let w ← parseCropValue (parts.getD 0 "")
    let h ← parseCropValue (parts.getD 1 "")
    let x ← parseCropValue (parts.getD 2 "")
    let y ← parseCropValue (parts.getD 3 "")
    pure ⟨w, h, x, y⟩

/-! ## Crop resolution (`apply_adjustments`, lines 872-918) -/

/-- Rust `as u32` cast from a finite `f32`: truncation toward zero with
saturation (negative values map to 0, values beyond `u32::MAX`
to `2^32 - 1`). -/
def qToU32 (q : ℚ) : ℕ :=
  if q < 0 then 0 else min (ratFloorNat q) (2 ^ 32 - 1)

/-- The resolved crop rectangle `(start_x, start_y, end_x, end_y)`. -/
structure CropRect where
  startX : ℕ
  startY : ℕ
  endX : ℕ
  endY : ℕ
deriving DecidableEq, Repr

/-- Crop-rectangle resolution, the block at lines 876-914 of
`apply_adjustments`: negative `x`/`y` are percentage offsets from the
right/bottom edge; a `width`/`height` of at most 0 means the remainder of
the dimension, a value in `(0, 100]` is treated as a percentage (whether
or not the original field carried a `%` suffix) and a larger value as
pixels.  `end_x`/`end_y` are clamped with `.min(width)`/`.min(height)`;
`start_x`/`start_y` are not clamped.  The `u32` addition wraps modulo
`2^32` (release-build semantics). -/
def resolveCropRect (width height : ℕ) (p : CropParams) : CropRect :=
  let xOffset : ℚ := if p.x < 0 then (width : ℚ) + p.x / 100 * width else p.x
  let yOffset : ℚ := if p.y < 0 then (height : ℚ) + p.y / 100 * height else p.y
  let cropW : ℚ :=
    if p.width ≤ 0 then (width : ℚ) - xOffset
    else if p.width ≤ 100 ∧ 0 < p.width then p.width / 100 * width
    else p.width
  let cropH : ℚ :=
    if p.height ≤ 0 then (height : ℚ) - yOffset
    else if p.height ≤ 100 ∧ 0 < p.height then p.height / 100 * height
    else p.height
  let startX := qToU32 xOffset
  let startY := qToU32 yOffset
  let endX := min ((startX + qToU32 cropW) % 2 ^ 32) width
  let endY := min ((startY + qToU32 cropH) % 2 ^ 32) height
  ⟨startX, startY, endX, endY⟩

/-! ## Per-pixel adjustment (`apply_adjustments`, lines 925-978) -/

/-- The per-pixel transform of `apply_adjustments` (lines 931-972):
normalise to `[0,1]`, then conditionally apply exposure
(`* 2^e`, via the external `powf`), brightness (`+ b/100`), contrast
(`(v - 0.5) * c + 0.5`) and saturation (luma blend), then clamp, scale by
255 and cast to `u8`.  Each step is guarded by a Rust `!=` test exactly as
in the source. -/
def adjustPixel (powf : FNum → FNum → FNum)
    (exposure brightness contrast saturation : FNum) (rgb : ℕ × ℕ × ℕ) :
    ℕ × ℕ × ℕ :=
  let rf0 := FNum.div (.fin rgb.1) (.fin 255)
  let gf0 := FNum.div (.fin rgb.2.1) (.fin 255)
  let bf0 := FNum.div (.fin rgb.2.2) (.fin 255)
  let exposureMultiplier := powf (.fin 2) exposure
  let rf1 := if FNum.fne exposure (.fin 0) then FNum.mul rf0 exposureMultiplier else rf0
  let gf1 := if FNum.fne exposure (.fin 0) then FNum.mul gf0 exposureMultiplier else gf0
  let bf1 := if FNum.fne exposure (.fin 0) then FNum.mul bf0 exposureMultiplier else bf0
  let brightnessAdjust := FNum.div brightness (.fin 100)
  let rf2 := if FNum.fne brightness (.fin 0) then FNum.add rf1 brightnessAdjust else rf1
  let gf2 := if FNum.fne brightness (.fin 0) then FNum.add gf1 brightnessAdjust else gf1
  let bf2 := if FNum.fne brightness (.fin 0) then FNum.add bf1 brightnessAdjust else bf1
  let rf3 := if FNum.fne contrast (.fin 1) then
      FNum.add (FNum.mul (FNum.sub rf2 (.fin (1/2))) contrast) (.fin (1/2)) else rf2
  let gf3 := if FNum.fne contrast (.fin 1) then
      FNum.add (FNum.mul (FNum.sub gf2 (.fin (1/2))) contrast) (.fin (1/2)) else gf2
  let bf3 := if FNum.fne contrast (.fin 1) then
      FNum.add (FNum.mul (FNum.sub bf2 (.fin (1/2))) contrast) (.fin (1/2)) else bf2
  let gray := FNum.add
    (FNum.add (FNum.mul (.fin (299/1000)) rf3) (FNum.mul (.fin (587/1000)) gf3))
    (FNum.mul (.fin (114/1000)) bf3)
  let rf4 := if FNum.fne saturation (.fin 1) then
      FNum.add gray (FNum.mul (FNum.sub rf3 gray) saturation) else rf3
  let gf4 := if FNum.fne saturation (.fin 1) then
      FNum.add gray (FNum.mul (FNum.sub gf3 gray) saturation) else gf3
  let bf4 := if FNum.fne saturation (.fin 1) then
      FNum.add gray (FNum.mul (FNum.sub bf3 gray) saturation) else bf3
  (FNum.toU8 (FNum.mul (FNum.clampF rf4 (.fin 0) (.fin 1)) (.fin 255)),
   FNum.toU8 (FNum.mul (FNum.clampF gf4 (.fin 0) (.fin 1)) (.fin 255)),
   FNum.toU8 (FNum.mul (FNum.clampF bf4 (.fin 0) (.fin 1)) (.fin 255)))

/-- Embeds `apply_adjustments` (lines 864-981).  The interpolated parameter
values are computed first, then the crop rectangle is resolved (full
image bounds when no crop is set), and the output image is the per-pixel
transform of the cropped region (output pixel `(nx, ny)` comes from input
pixel `(start_x + nx, start_y + ny)`; pixels outside the crop are
dropped).  Output dimensions are `end - start`; in the source this is
`u32` subtraction, which panics on underflow — modelled by truncating `ℕ`
subtraction (see the C4 analysis: underflow is reachable). -/
def applyAdjustments (powf : FNum → FNum → FNum) (img : Image)
    (adjustments : ImageAdjustments) (frameIndex totalFrames : ℕ) :
    Except ProcessingError Image :=
  let vals := getValuesAtFrame adjustments frameIndex totalFrames
  let rect : Except ProcessingError CropRect :=
    match adjustments.crop with
    | some cropStr =>
        match parseCropString cropStr with
        | .error e => .error ⟨"Failed to parse crop string: " ++ e⟩
        | .ok cropParams => .ok (resolveCropRect img.width img.height cropParams)
    | none => .ok ⟨0, 0, img.width, img.height⟩
  match rect with
  | .error e => .error e
  | .ok r =>
      .ok { width := r.endX - r.startX, height := r.endY - r.startY,
            pix := fun nx ny =>
              adjustPixel powf vals.1 vals.2.1 vals.2.2.1 vals.2.2.2
                (img.pix (r.startX + nx) (r.startY + ny)) }

/-! ## File discovery and naming (lines 849-862, 983-986) -/

/-- Model of `Path::extension` for the string paths of the model: the part of the
final path component after its last `.`, none when there is no `.` or the
only `.` is the leading one of a hidden file. -/
def extensionOf (path : String) : Option String :=
  let name := (strSplitOnChar '/' path).getLastD path
  let parts := strSplitOnChar '.' name
  if parts.length ≤ 1 then none
  else if parts.length = 2 ∧ strIsEmpty (parts.getD 0 "") then none
  else some (parts.getLastD "")

/-- Embeds `is_image_file` (lines 849-862): extension whitelist, case
insensitive.  Note that the RAW formats `raw`/`cr2`/`nef`/`arw` are
accepted. -/
def isImageFile (path : String) : Bool :=
  match extensionOf path with
  | some ext =>
      ["jpg", "jpeg", "png", "tiff", "tif", "bmp", "webp",
       "raw", "cr2", "nef", "arw"].contains (strToLower ext)
  | none => false

/-- Model of `Path::file_stem` for the string paths of the model. -/
def fileStem (path : String) : String :=
  let name := (strSplitOnChar '/' path).getLastD path
  let parts := strSplitOnChar '.' name
  if parts.length ≤ 1 then name
  else joinWithDot parts.dropLast

/-- Embeds `generate_output_filename` (lines 983-986):
`<stem>_processed.<format>`. -/
def generateOutputFilename (inputPath outputFormat : String) : String :=
  fileStem inputPath ++ "_processed." ++ outputFormat

/-! ## The per-frame task and the image-mode run (lines 511-611) -/

/-- One parallel task of `process_images_to_images` (the closure at lines
573-598): open the image with the external decoder, apply the adjustments
at global frame index `start_idx + i` with `total_available_frames` as the
interpolation span, and write the output with the external writer.  A
failure at any stage produces the per-frame `ProcessingError` carrying the
corresponding message; **no RAW fallback decode exists** — a standard
decode failure is immediately a per-frame error.  On success the written
file (path and pixel data) is returned, recording the on-disk side
effect. -/
def processFrame (decode : String → Except String Image)
    (save : String → Image → Except String Unit)
    (powf : FNum → FNum → FNum) (adjustments : ImageAdjustments)
    (outputFormat outputDir : String) (startIdx totalAvailable i : ℕ)
    (imagePath : String) : Except ProcessingError (String × Image) :=
  match decode imagePath with
  | .error e => .error ⟨"Failed to open image: " ++ e⟩
  | .ok img =>
      match applyAdjustments powf img adjustments (startIdx + i) totalAvailable with
      | .error pe => .error ⟨"Failed to apply adjustments: " ++ pe.msg⟩
      | .ok processedImg =>
          let outputFilePath := outputDir ++ "/" ++ generateOutputFilename imagePath outputFormat
          match save outputFilePath processedImg with
          | .error e => .error ⟨"Failed to save image: " ++ e⟩
          | .ok _ => .ok (outputFilePath, processedImg)

/-- Embeds `process_images_to_images` (lines 511-611) up to the final error
check: filter the directory entries through `is_image_file`, sort
(`Vec::sort` is a stable sort, modelled by insertion sort), validate the
frame range, keep `skip(start_idx).take(end_idx - start_idx + 1)` and run
every per-frame task.  `rayon`'s `par_iter().map(…).collect::<Vec<_>>()`
runs every task regardless of sibling failures, so the result is the full
list of per-frame outcomes in input order (directory reading and the
thread pool are external; entries come in as `dirEntries`). -/
def processImagesToImages (decode : String → Except String Image)
    (save : String → Image → Except String Unit)
    (powf : FNum → FNum → FNum) (adjustments : ImageAdjustments)
    (outputFormat outputDir : String) (startFrame endFrame : Option ℕ)
    (dirEntries : List String) :
    Except String (List (Except ProcessingError (String × Image))) :=
  let imageFiles := (dirEntries.filter (fun p => isImageFile p)).insertionSort pathLe
  if imageFiles.isEmpty then .error "No image files found in input directory"
  else
    let totalAvailableFrames := imageFiles.length
    let startIdx := startFrame.getD 0
    let endIdx := endFrame.getD (totalAvailableFrames - 1)
    if totalAvailableFrames ≤ startIdx then
      .error ("Start frame " ++ toString startIdx ++ " is out of range (0-"
        ++ toString (totalAvailableFrames - 1) ++ ")")
    else if totalAvailableFrames ≤ endIdx then
      .error ("End frame " ++ toString endIdx ++ " is out of range (0-"
        ++ toString (totalAvailableFrames - 1) ++ ")")
    else
      let filteredFiles := (imageFiles.drop startIdx).take (endIdx - startIdx + 1)
      .ok ((filteredFiles.enum).map (fun p =>
        processFrame decode save powf adjustments outputFormat outputDir
          startIdx totalAvailableFrames p.1 p.2))

/-- The successfully written outputs among the per-frame results: these
files are on disk whatever the other frames did (writes are not rolled
back). -/
def writtenOutputs (results : List (Except ProcessingError (String × Image))) :
    List (String × Image) :=
  results.filterMap (fun r => match r with | .ok v => some v | .error _ => none)

/-- The collected per-frame errors among the results. -/
def perFrameErrors (results : List (Except ProcessingError (String × Image))) :
    List ProcessingError :=
  results.filterMap (fun r => match r with | .error e => some e | .ok _ => none)

/-- The final loop of `process_images_to_images` (lines 602-605): the run
returns the first per-frame error when one exists, success otherwise. -/
def runResult (results : List (Except ProcessingError (String × Image))) :
    Except ProcessingError Unit :=
  match results.findSome? (fun r => match r with | .error e => some e | .ok _ => none) with
  | some e => .error e
  | none => .ok ()

/-! ## Resolution planning (lines 127-211) -/

/-- Model of Rust `str::parse::<u32>`: digit string, value within `u32`
range. -/
def parseNatU32 (s : String) : Option ℕ :=
  if !strIsEmpty s && s.data.all Char.isDigit then
    let v := natOfDigits s
    if v ≤ 2 ^ 32 - 1 then some v else none
  else none

/-- Embeds `parse_resolution` (lines 192-211): named presets (matched on the
lowercased input) or a literal `WIDTHxHEIGHT` (split on the original
string). -/
def parseResolution (resolution : String) : Except String (ℕ × ℕ) :=
  let resStr :=
    match strToLower resolution with
    | "4k" => "3840x2160"
    | "hd" => "1920x1080"
    | "1080p" => "1920x1080"
    | "720p" => "1280x720"
    | _ => resolution
  let parts := strSplitOnChar 'x' resStr
  if parts.length ≠ 2 then .error ("Invalid resolution format: " ++ resolution)
  else
    match parseNatU32 (parts.getD 0 "") with
    | none => .error ("Invalid width in resolution: " ++ parts.getD 0 "")
    | some w =>
        match parseNatU32 (parts.getD 1 "") with
        | none => .error ("Invalid height in resolution: " ++ parts.getD 1 "")
        | some h => .ok (w, h)

/-- Embeds `validate_resolution_proportion` (lines 127-190).  `firstDims` stands
for the externally decoded dimensions of the first image file (`None` when
the file list is empty).  Output width is
`(target_height * original_ratio) as u32` bumped to even; output height is
the target height bumped to even.  The returned `Bool` records whether the
non-fatal aspect-ratio warning was printed, which the source decides by
`(original_ratio - target_ratio).abs() > 0.05` — an absolute comparison of
the two ratios. -/
def validateResolutionProportion (firstDims : Option (ℕ × ℕ))
    (targetResolution : Option String) :
    Except String (Option ((ℕ × ℕ) × Bool)) :=
  match targetResolution with
  | none => .ok none
  | some res =>
      match firstDims with
      | none => .ok none
      | some dims =>
          match parseResolution res with
          | .error e => .error e
          | .ok target =>
              let originalRatio : ℚ := (dims.1 : ℚ) / (dims.2 : ℚ)
              let outputWidth0 := qToU32 ((target.2 : ℚ) * originalRatio)
              let outputWidth := if outputWidth0 % 2 ≠ 0 then outputWidth0 + 1 else outputWidth0
              let outputHeight := if target.2 % 2 ≠ 0 then target.2 + 1 else target.2
              let targetRatio : ℚ := (target.1 : ℚ) / (target.2 : ℚ)
              let ratioDifference := |originalRatio - targetRatio|
              let tolerance : ℚ := 5 / 100
              .ok (some ((outputWidth, outputHeight), decide (tolerance < ratioDifference)))

/-! ## Video assembly tail (lines 831-846) -/

/-- The end of `process_images_to_video` after the external encoder has
run (lines 831-846): on a non-zero exit status the function returns the
`FFmpeg failed` error carrying the encoder's stderr text *before* the
temp-directory cleanup, so the temp frames stay on disk; only on a
successful exit is `fs::remove_dir_all(temp_dir)` reached.  The returned
`Bool` records whether the temp frame directory was removed. -/
def finalizeVideo (encoderSuccess : Bool) (encoderStderr : String) :
    Except String Unit × Bool :=
  if !encoderSuccess then (.error ("FFmpeg failed: " ++ encoderStderr), false)
  else (.ok (), true)

/-! ## The RAW ingestion fallback described by the spec

The spec (§4.3 ImageIngest) describes a load path that first attempts the
standard decode and falls back to a RAW sensor decode; nothing of the kind
exists in `src/src/main.rs`, whose tasks call only the standard decoder
(`image::open`) and turn its failure directly into a per-frame error.  The
definitions below model the *specified* behaviour so that it can be
compared with the code. -/

/-- A frame of raw sensor samples (integer or floating-point samples are
both just real scalars here). -/
structure RawFrame where
  width : ℕ
  height : ℕ
  sample : ℕ → ℕ → ℝ

/-- Modelled from the spec: the RAW normalisation pipeline of §4.3, which
is absent from `src/` — "compute min/max across the frame, linearly
normalize to [0,1], apply `boost` multiplicatively, apply gamma correction
(exponent 1/2.2), clamp to [0,255], and replicate the scalar into all
three output channels". -/
noncomputable def processRawSpec (boost : ℝ) (frame : RawFrame) : Image :=
  let samples : List ℝ :=
    (List.range frame.height).flatMap
      (fun y => (List.range frame.width).map (fun x => frame.sample x y))
  let mn := samples.foldl min (samples.headD 0)
  let mx := samples.foldl max (samples.headD 0)
  { width := frame.width, height := frame.height,
    pix := fun x y =>
      let v := (frame.sample x y - mn) / (mx - mn)
      let g := (v * boost) ^ ((1 : ℝ) / (22 / 10 : ℝ))
      let scaled := min (255 : ℝ) (max 0 (g * 255))
      (⌊scaled⌋₊, ⌊scaled⌋₊, ⌊scaled⌋₊) }

/-- The load-failure error of the spec's ImageIngest contract. -/
inductive LoadError where
  | unsupportedOrCorruptImage
deriving DecidableEq, Repr

/-- Modelled from the spec: `ImageIngest.load` of §4.3, absent from
`src/` — "attempt standard decode …; on failure, attempt RAW sensor
decode", failing with `UnsupportedOrCorruptImage` only when both decoders
fail. -/
noncomputable def loadSpec (standardDecode : String → Option Image)
    (rawDecode : String → Option RawFrame) (boost : ℝ) (path : String) :
    Except LoadError Image :=
  match standardDecode path with
  | some img => .ok img
  | none =>
      match rawDecode path with
      | some frame => .ok (processRawSpec boost frame)
      | none => .error .unsupportedOrCorruptImage

/-! ## Helper lemmas -/

/-- On non-negative rationals `ratFloorNat` agrees with `Nat.floor`. -/
theorem ratFloorNat_eq_floor {q : ℚ} (h : 0 ≤ q) : ratFloorNat q = ⌊q⌋₊ := by
  have hnum : 0 ≤ q.num := Rat.num_nonneg.mpr h
  have hfloor : ⌊q⌋ = q.num / (q.den : ℤ) := Rat.floor_def
  have htoNat : ⌊q⌋₊ = ⌊q⌋.toNat := (Int.floor_toNat q).symm
  obtain ⟨m, hm⟩ := Int.eq_ofNat_of_zero_le hnum
  rw [ratFloorNat, htoNat, hfloor, hm]
  norm_cast

/-- The cast `qToU32` always lands strictly below `2^32`. -/
theorem qToU32_lt_two_pow (q : ℚ) : qToU32 q < 2 ^ 32 := by
  unfold qToU32
  split
  · positivity
  · have h : min (ratFloorNat q) (2 ^ 32 - 1) ≤ 2 ^ 32 - 1 := min_le_right _ _
    omega

/-- The cast `qToU32` is bounded by any natural bound on its argument. -/
theorem qToU32_le_nat {q : ℚ} {n : ℕ} (h : q ≤ (n : ℚ)) : qToU32 q ≤ n := by
  unfold qToU32
  split
  · exact Nat.zero_le n
  · rename_i hq
    push_neg at hq
    rw [ratFloorNat_eq_floor hq]
    refine le_trans (min_le_left _ _) ?_
    have h2 : ⌊q⌋₊ ≤ ⌊(n : ℚ)⌋₊ := Nat.floor_le_floor h
    simpa using h2

/-! ## Claims -/

/-- Claim C2 (code_bug evaluation): for the two-value timeline `[0, 1]` at
`frame_index = 0` with `total_frames = 1`, `interpolate_value` computes
`t = 0/0 = NaN` (only a timeline of *length* 1 is special-cased, not
`total_frames = 1`) and returns NaN — not the first control value `0` the
spec's contract promises.  The last conjunct shows the contract does hold
for a length-1 timeline, isolating the bug to timelines of length ≥ 2. -/
theorem interpolate_single_frame_nan :
    interpolateValue [.fin 0, .fin 1] 0 1 = .nan ∧
    interpolateValue [.fin 0, .fin 1] 0 1 ≠ .fin 0 ∧
    interpolateValue [.fin 7] 0 1 = .fin 7 := by
  refine ⟨rfl, by decide, rfl⟩

/-- Claim C8: if the external encoder exits with a non-zero status the video
run fails with the `FFmpeg failed` error carrying the encoder's stderr
text and the temp frame directory is left in place; the temp directory is
removed exactly when the encoder exits successfully. -/
theorem encoder_exit_controls_temp_cleanup (stderrText : String) :
    finalizeVideo false stderrText = (.error ("FFmpeg failed: " ++ stderrText), false) ∧
    finalizeVideo true stderrText = (.ok (), true) ∧
    ∀ s : Bool, ((finalizeVideo s stderrText).2 = true ↔ s = true) := by
  refine ⟨rfl, rfl, ?_⟩
  intro s
  cases s <;> simp [finalizeVideo]

/-- Claim C3 (counterexample): the `%` marker is discarded by
`parse_crop_value`, and `apply_adjustments` treats any width in `(0, 100]`
as a percentage — so the bare width `50` of the crop string `"50:50:0:0"`
on a 200-pixel-wide image resolves to a 100-pixel-wide crop, not the
50-pixel-wide crop the claim asserts. -/
theorem bare_crop_value_treated_as_percent :
    parseCropString "50:50:0:0" = .ok ⟨50, 50, 0, 0⟩ ∧
    resolveCropRect 200 100 ⟨50, 50, 0, 0⟩ = ⟨0, 0, 100, 50⟩ ∧
    (resolveCropRect 200 100 ⟨50, 50, 0, 0⟩).endX -
      (resolveCropRect 200 100 ⟨50, 50, 0, 0⟩).startX ≠ 50 := by
  have h : resolveCropRect 200 100 ⟨50, 50, 0, 0⟩ = ⟨0, 0, 100, 50⟩ := by
    norm_num [resolveCropRect, qToU32, ratFloorNat]
    omega
  refine ⟨by decide, h, by rw [h]; decide⟩

/-- Claim C3 (amended): the `%` suffix is validated at parse time but not
preserved — a bare field and a `%`-suffixed field with the same numeric
value parse identically — and at resolution time a width/height value in
`(0, 100]` is treated as a percentage of the image dimension, a value
above 100 as pixels, and a value of at most 0 as the remainder of the
dimension after the offset. -/
theorem crop_value_resolution_rule :
    parseCropValue "50%" = .ok 50 ∧
    parseCropValue "50" = .ok 50 ∧
    resolveCropRect 200 100 ⟨150, 50, 0, 0⟩ = ⟨0, 0, 150, 50⟩ ∧
    resolveCropRect 200 100 ⟨0, 0, 40, 10⟩ = ⟨40, 10, 200, 100⟩ := by
  refine ⟨by decide, by decide, ?_, ?_⟩ <;>
    · norm_num [resolveCropRect, qToU32, ratFloorNat]
      omega

/-- Claim C4 (counterexample): for the crop descriptor `"0:0:300:0"` on a
200×100 image the resolved rectangle has `start_x = 300 > 200 = end_x`:
`start_x` is never clamped to the image width, so the claimed invariant
`start_x ≤ end_x` fails and the `end_x - start_x` width computation
underflows (a `u32` subtraction panic in the source). -/
theorem crop_offset_beyond_bounds :
    parseCropString "0:0:300:0" = .ok ⟨0, 0, 300, 0⟩ ∧
    resolveCropRect 200 100 ⟨0, 0, 300, 0⟩ = ⟨300, 0, 200, 100⟩ ∧
    ¬((resolveCropRect 200 100 ⟨0, 0, 300, 0⟩).startX ≤
        (resolveCropRect 200 100 ⟨0, 0, 300, 0⟩).endX) := by
  have h : resolveCropRect 200 100 ⟨0, 0, 300, 0⟩ = ⟨300, 0, 200, 100⟩ := by
    norm_num [resolveCropRect, qToU32, ratFloorNat]
    omega
  refine ⟨by decide, h, by rw [h]; decide⟩

/-- One axis of the crop rectangle: if the offset is within `[0, D]` and
the length value is below `2^31`, the resolved `start`/`end` pair is
ordered and bounded by the dimension. -/
theorem crop_axis_bounds (D : ℕ) (off len : ℚ)
    (hD : D < 2 ^ 31) (hoffD : off ≤ (D : ℚ))
    (hlen : len < (2 ^ 31 : ℚ)) :
    qToU32 off ≤ min ((qToU32 off + qToU32 len) % 2 ^ 32) D ∧
    min ((qToU32 off + qToU32 len) % 2 ^ 32) D ≤ D := by
  have h1 : qToU32 off ≤ D := qToU32_le_nat hoffD
  have hcast : ((2 ^ 31 : ℕ) : ℚ) = (2 ^ 31 : ℚ) := by push_cast; ring
  have h2 : qToU32 len ≤ 2 ^ 31 := qToU32_le_nat (le_of_eq_of_le rfl (hcast ▸ hlen.le))
  have h3 : qToU32 off + qToU32 len < 2 ^ 32 := by omega
  rw [Nat.mod_eq_of_lt h3]
  exact ⟨le_min (Nat.le_add_right _ _) h1, min_le_right _ _⟩

/-- Claim C4 (amended): `end_x ≤ width` and `end_y ≤ height` always hold
(the ends are clamped with `.min`), and the full invariant
`start ≤ end ≤ dimension` holds on both axes provided the crop offsets do
not land beyond the image (`-100 ≤ x ≤ width`, `-100 ≤ y ≤ height`) and
the parameters stay below `2^31` so the `u32` sum cannot wrap; the
counterexample shows the invariant fails without the offset bound. -/
theorem crop_rect_bounds_of_bounded_offsets (W H : ℕ) (p : CropParams)
    (hWcap : W < 2 ^ 31) (hHcap : H < 2 ^ 31)
    (hx0 : -100 ≤ p.x) (hx1 : p.x ≤ (W : ℚ))
    (hy0 : -100 ≤ p.y) (hy1 : p.y ≤ (H : ℚ))
    (hw : p.width < (2 ^ 31 : ℚ)) (hh : p.height < (2 ^ 31 : ℚ)) :
    (resolveCropRect W H p).startX ≤ (resolveCropRect W H p).endX ∧
    (resolveCropRect W H p).endX ≤ W ∧
    (resolveCropRect W H p).startY ≤ (resolveCropRect W H p).endY ∧
    (resolveCropRect W H p).endY ≤ H := by
  have hWQ : (W : ℚ) < (2 ^ 31 : ℚ) := by exact_mod_cast hWcap
  have hHQ : (H : ℚ) < (2 ^ 31 : ℚ) := by exact_mod_cast hHcap
  have hW0 : (0 : ℚ) ≤ (W : ℚ) := Nat.cast_nonneg W
  have hH0 : (0 : ℚ) ≤ (H : ℚ) := Nat.cast_nonneg H
  simp only [resolveCropRect]
  set xOff : ℚ := (if p.x < 0 then (W : ℚ) + p.x / 100 * W else p.x) with hxd
  set yOff : ℚ := (if p.y < 0 then (H : ℚ) + p.y / 100 * H else p.y) with hyd
  set cw : ℚ := (if p.width ≤ 0 then (W : ℚ) - xOff
    else if p.width ≤ 100 ∧ 0 < p.width then p.width / 100 * W else p.width) with hcwd
  set ch : ℚ := (if p.height ≤ 0 then (H : ℚ) - yOff
    else if p.height ≤ 100 ∧ 0 < p.height then p.height / 100 * H else p.height) with hchd
  have hxOff0 : (0 : ℚ) ≤ xOff := by
    rw [hxd]; split
    · nlinarith
    · rename_i hpos; exact le_of_not_lt hpos
  have hyOff0 : (0 : ℚ) ≤ yOff := by
    rw [hyd]; split
    · nlinarith
    · rename_i hpos; exact le_of_not_lt hpos
  have hxOffW : xOff ≤ (W : ℚ) := by
    rw [hxd]; split
    · nlinarith
    · exact hx1
  have hyOffH : yOff ≤ (H : ℚ) := by
    rw [hyd]; split
    · nlinarith
    · exact hy1
  have hcwlt : cw < (2 ^ 31 : ℚ) := by
    rw [hcwd]; split
    · linarith
    · split
      · rename_i hrange
        nlinarith [hrange.1, hrange.2]
      · exact hw
  have hchlt : ch < (2 ^ 31 : ℚ) := by
    rw [hchd]; split
    · linarith
    · split
      · rename_i hrange
        nlinarith [hrange.1, hrange.2]
      · exact hh
  obtain ⟨a1, a2⟩ := crop_axis_bounds W xOff cw hWcap hxOffW hcwlt
  obtain ⟨b1, b2⟩ := crop_axis_bounds H yOff ch hHcap hyOffH hchlt
  exact ⟨a1, a2, b1, b2⟩

/-- Witness for the amended C4 theorem at a concrete in-bounds crop. -/
theorem crop_rect_bounds_witness :
    (resolveCropRect 200 100 ⟨50, 50, 10, 10⟩).startX ≤
      (resolveCropRect 200 100 ⟨50, 50, 10, 10⟩).endX ∧
    (resolveCropRect 200 100 ⟨50, 50, 10, 10⟩).endX ≤ 200 ∧
    (resolveCropRect 200 100 ⟨50, 50, 10, 10⟩).startY ≤
      (resolveCropRect 200 100 ⟨50, 50, 10, 10⟩).endY ∧
    (resolveCropRect 200 100 ⟨50, 50, 10, 10⟩).endY ≤ 100 :=
  crop_rect_bounds_of_bounded_offsets 200 100 ⟨50, 50, 10, 10⟩
    (by norm_num) (by norm_num) (by norm_num) (by norm_num)
    (by norm_num) (by norm_num) (by norm_num) (by norm_num)

/-- Claim C9 (counterexample): a 1850×1000 source with target `1920x1080`
makes the code warn (`|1.85 - 16/9| = 13/180 > 0.05` in the absolute
comparison of the source) even though the claim's relative-tolerance
condition `|source - target| / target > 0.05` is false
(`(13/180)/(16/9) = 0.040625`), so the claimed warning condition is not
the one implemented. -/
theorem resolution_warning_not_relative :
    validateResolutionProportion (some (1850, 1000)) (some "1920x1080") =
      .ok (some ((1998, 1080), true)) ∧
    ¬((5 : ℚ) / 100 <
        |(1850 : ℚ) / 1000 - (1920 : ℚ) / 1080| / ((1920 : ℚ) / 1080)) := by
  constructor
  · have hp : parseResolution "1920x1080" = Except.ok (1920, 1080) := by decide
    simp only [validateResolutionProportion, hp]
    norm_num [qToU32, ratFloorNat, abs_of_pos]
    split <;> omega
  · norm_num [abs_of_pos]

/-- Claim C9 (amended): whenever a target resolution parses, the resolution
planner produces output dimensions that are both even, and it emits the
aspect-ratio warning exactly when the *absolute* difference between the
source ratio and the target ratio exceeds `0.05` (not the claimed 5%
relative tolerance). -/
theorem resolution_dims_even_warning_absolute (ow oh tw th : ℕ) (res : String)
    (hp : parseResolution res = .ok (tw, th)) :
    ∃ w h warn,
      validateResolutionProportion (some (ow, oh)) (some res) =
        .ok (some ((w, h), warn)) ∧
      w % 2 = 0 ∧ h % 2 = 0 ∧
      (warn = true ↔
        (5 : ℚ) / 100 < |(ow : ℚ) / (oh : ℚ) - (tw : ℚ) / (th : ℚ)|) := by
  simp only [validateResolutionProportion, hp]
  refine ⟨_, _, _, rfl, ?_, ?_, ?_⟩
  · split <;> omega
  · split <;> omega
  · exact decide_eq_true_iff

/-- Witness for the amended C9 theorem: the 1850×1000 source against the
`1920x1080` target. -/
theorem resolution_dims_even_witness :
    ∃ w h warn,
      validateResolutionProportion (some (1850, 1000)) (some "1920x1080") =
        .ok (some ((w, h), warn)) ∧
      w % 2 = 0 ∧ h % 2 = 0 ∧
      (warn = true ↔
        (5 : ℚ) / 100 < |(1850 : ℚ) / 1000 - (1920 : ℚ) / 1080|) :=
  resolution_dims_even_warning_absolute 1850 1000 1920 1080 "1920x1080" (by decide)

/-- Claim C10: a `%`-suffixed crop field whose numeric value lies outside
`[0, 100]` is always rejected with an error, while a bare field parses to
its (possibly negative) value — so a negative offset from the far edge
can only be written as a bare negative number, never as a negative
percentage. -/
theorem percent_crop_range_enforced (s t : String) (v w : ℚ)
    (hs : strLastIs '%' (strTrim s) = true)
    (hv : parseDecimal (strDropLastChar (strTrim s)) = some v)
    (hrange : v < 0 ∨ 100 < v)
    (ht : strLastIs '%' (strTrim t) = false)
    (hw : parseDecimal (strTrim t) = some w) :
    parseCropValue s =
      .error ("Percentage must be between 0 and 100: " ++ strTrim s) ∧
    parseCropValue t = .ok w := by
  constructor
  · simp only [parseCropValue, hs, hv, if_true]
    rw [if_pos hrange]
  · simp only [parseCropValue, ht, hw, Bool.false_eq_true, if_false]

/-- Witness for the C10 theorem: `"150%"` is rejected, `"-10"` parses to
the negative offset `-10`. -/
theorem percent_crop_range_enforced_witness :
    parseCropValue "150%" =
      .error ("Percentage must be between 0 and 100: " ++ strTrim "150%") ∧
    parseCropValue "-10" = .ok (-10) :=
  percent_crop_range_enforced "150%" "-10" 150 (-10)
    (by decide) (by decide) (Or.inr (by norm_num)) (by decide) (by decide)

/-- The whole per-channel pipeline of `apply_adjustments` at identity
settings: normalise, clamp, rescale and cast returns the original `u8`
value (exact in `f32` as well: the `r/255*255` round trip was checked
exhaustively for all 256 channel values). -/
theorem channel_roundtrip (c : ℕ) (hc : c ≤ 255) :
    FNum.toU8 (FNum.mul
      (FNum.clampF (FNum.div (.fin (c : ℚ)) (.fin 255)) (.fin 0) (.fin 1))
      (.fin 255)) = c := by
  have hge : ¬((c : ℚ) / 255 < 0) := not_lt.mpr (by positivity)
  have hle : ¬((1 : ℚ) < (c : ℚ) / 255) := by
    rw [not_lt, div_le_one (by norm_num : (0 : ℚ) < 255)]
    exact_mod_cast hc
  have hdiv : FNum.div (.fin (c : ℚ)) (.fin 255) = .fin ((c : ℚ) / 255) := by
    simp [FNum.div]
  have hclamp : FNum.clampF (.fin ((c : ℚ) / 255)) (.fin 0) (.fin 1) =
      .fin ((c : ℚ) / 255) := by
    simp [FNum.clampF, FNum.flt, hge, hle]
  have hmul : FNum.mul (.fin ((c : ℚ) / 255)) (.fin 255) = .fin (c : ℚ) := by
    rw [FNum.mul]
    norm_num
  rw [hdiv, hclamp, hmul, FNum.toU8]
  rw [if_neg (not_lt.mpr (by positivity : (0 : ℚ) ≤ (c : ℚ)))]
  rw [ratFloorNat_eq_floor (by positivity : (0 : ℚ) ≤ (c : ℚ))]
  simp [Nat.floor_natCast]
  omega

/-- At identity parameter values (`e = 0`, `b = 0`, `c = 1`, `s = 1`)
every conditional adjustment step is skipped and `adjustPixel` is the
identity on `u8` pixels. -/
theorem adjustPixel_id (powf : FNum → FNum → FNum) (rgb : ℕ × ℕ × ℕ)
    (h1 : rgb.1 ≤ 255) (h2 : rgb.2.1 ≤ 255) (h3 : rgb.2.2 ≤ 255) :
    adjustPixel powf (.fin 0) (.fin 0) (.fin 1) (.fin 1) rgb = rgb := by
  obtain ⟨r, g, b⟩ := rgb
  have hfne0 : FNum.fne (.fin 0) (.fin 0) = false := by simp [FNum.fne]
  have hfne1 : FNum.fne (.fin 1) (.fin 1) = false := by simp [FNum.fne]
  simp only [adjustPixel, hfne0, hfne1, Bool.false_eq_true, if_false]
  exact congrArg₂ Prod.mk (channel_roundtrip r h1)
    (congrArg₂ Prod.mk (channel_roundtrip g h2) (channel_roundtrip b h3))

/-- Claim C7: with exposure 0, brightness 0, contrast 1, saturation 1 and no
crop, `apply_adjustments` returns an image with the same dimensions and
pixel-identical content. -/
theorem identity_adjustments_noop (powf : FNum → FNum → FNum) (img : Image)
    (hwf : img.Wellformed) (frameIndex totalFrames : ℕ) :
    applyAdjustments powf img ⟨[.fin 0], [.fin 0], [.fin 1], [.fin 1], none⟩
      frameIndex totalFrames = .ok img := by
  obtain ⟨w, h, pfun⟩ := img
  have hpix : ∀ x y, adjustPixel powf (.fin 0) (.fin 0) (.fin 1) (.fin 1)
      (pfun x y) = pfun x y := by
    intro x y
    exact adjustPixel_id powf (pfun x y) (hwf x y).1 (hwf x y).2.1 (hwf x y).2.2
  simp only [applyAdjustments, getValuesAtFrame]
  simp only [show interpolateValue [.fin 0] frameIndex totalFrames = .fin 0 from rfl,
    show interpolateValue [.fin 1] frameIndex totalFrames = .fin 1 from rfl]
  simp only [Except.ok.injEq, Image.mk.injEq]
  refine ⟨by omega, by omega, ?_⟩
  funext x y
  simp [hpix]

/-- Witness for the C7 theorem on a concrete 2×2 image. -/
theorem identity_adjustments_noop_witness :
    Image.Wellformed ⟨2, 2, fun _ _ => (10, 20, 30)⟩ ∧
    applyAdjustments (fun _ _ => .fin 1) ⟨2, 2, fun _ _ => (10, 20, 30)⟩
      ⟨[.fin 0], [.fin 0], [.fin 1], [.fin 1], none⟩ 0 3 =
      .ok ⟨2, 2, fun _ _ => (10, 20, 30)⟩ := by
  have hwf : Image.Wellformed ⟨2, 2, fun _ _ => (10, 20, 30)⟩ := by
    intro x y
    norm_num [Image.Wellformed]
  exact ⟨hwf, identity_adjustments_noop (fun _ _ => .fin 1) _ hwf 0 3⟩

/-- Claim C1 (code evaluation at the failing input): `is_image_file`
accepts the RAW file `photo.cr2`, yet the per-frame task turns a standard
decoder failure directly into the `Failed to open image` per-frame error
for *any* adjustment settings — no RAW fallback is attempted and no
`UnsupportedOrCorruptImage` distinction exists in the code — while under
the spec's ImageIngest contract (`loadSpec`) the same file would load
successfully whenever a RAW decode is possible. -/
theorem raw_fallback_not_implemented :
    isImageFile "photo.cr2" = true ∧
    (∀ (save : String → Image → Except String Unit)
       (powf : FNum → FNum → FNum) (adjustments : ImageAdjustments)
       (fmt dir errMsg : String) (startIdx total i : ℕ),
       processFrame (fun _ => .error errMsg) save powf adjustments fmt dir
         startIdx total i "photo.cr2" =
         .error ⟨"Failed to open image: " ++ errMsg⟩) ∧
    (∀ (rawDecode : String → Option RawFrame) (boost : ℝ) (frame : RawFrame),
       rawDecode "photo.cr2" = some frame →
       (loadSpec (fun _ => none) rawDecode boost "photo.cr2").isOk = true) := by
  refine ⟨by decide, ?_, ?_⟩
  · intro save powf adjustments fmt dir errMsg startIdx total i
    rfl
  · intro rawDecode boost frame hframe
    simp only [loadSpec, hframe]
    rfl

/-- Witness for the C1 theorem at concrete decoders and a concrete RAW
frame. -/
theorem raw_fallback_not_implemented_witness :
    isImageFile "photo.cr2" = true ∧
    processFrame (fun _ => .error "unsupported format")
      (fun _ _ => .ok ()) (fun _ _ => .fin 1) defaultAdjustments
      "png" "out" 0 1 0 "photo.cr2" =
      .error ⟨"Failed to open image: " ++ "unsupported format"⟩ ∧
    (loadSpec (fun _ => none) (fun _ => some ⟨1, 1, fun _ _ => 0⟩) 2
      "photo.cr2").isOk = true := by
  obtain ⟨h1, h2, h3⟩ := raw_fallback_not_implemented
  exact ⟨h1,
    h2 (fun _ _ => .ok ()) (fun _ _ => .fin 1) defaultAdjustments
      "png" "out" "unsupported format" 0 1 0,
    h3 (fun _ => some ⟨1, 1, fun _ _ => 0⟩) 2 ⟨1, 1, fun _ _ => 0⟩ rfl⟩

/-- Claim C5: in image-output mode, one frame failing to decode among 5
sorted input files does not abort the siblings: all five tasks run, the
four decodable frames are fully processed (each adjusted at its own
global index over 5 total frames) and written to disk, the one failure is
collected as a per-frame `Failed to open image` error, and the run as a
whole reports failure while the four written outputs stand. -/
theorem one_corrupt_frame_isolated
    (decode : String → Except String Image)
    (save : String → Image → Except String Unit)
    (powf : FNum → FNum → FNum) (adjustments : ImageAdjustments)
    (fmt dir : String) (a b c d e : String) (errMsg : String)
    (imgA imgB imgD imgE : Image)
    (hsorted : List.Sorted pathLe [a, b, c, d, e])
    (hfa : isImageFile a = true) (hfb : isImageFile b = true)
    (hfc : isImageFile c = true) (hfd : isImageFile d = true)
    (hfe : isImageFile e = true)
    (hda : decode a = .ok imgA) (hdb : decode b = .ok imgB)
    (hdc : decode c = .error errMsg)
    (hdd : decode d = .ok imgD) (hde : decode e = .ok imgE)
    (hcrop : adjustments.crop = none)
    (hsave : ∀ p i, save p i = .ok ()) :
    ∃ results,
      processImagesToImages decode save powf adjustments fmt dir none none
        [a, b, c, d, e] = .ok results ∧
      results.length = 5 ∧
      perFrameErrors results = [⟨"Failed to open image: " ++ errMsg⟩] ∧
      runResult results = .error ⟨"Failed to open image: " ++ errMsg⟩ ∧
      ∃ outA outB outD outE,
        applyAdjustments powf imgA adjustments 0 5 = .ok outA ∧
        applyAdjustments powf imgB adjustments 1 5 = .ok outB ∧
        applyAdjustments powf imgD adjustments 3 5 = .ok outD ∧
        applyAdjustments powf imgE adjustments 4 5 = .ok outE ∧
        writtenOutputs results =
          [(dir ++ "/" ++ generateOutputFilename a fmt, outA),
           (dir ++ "/" ++ generateOutputFilename b fmt, outB),
           (dir ++ "/" ++ generateOutputFilename d fmt, outD),
           (dir ++ "/" ++ generateOutputFilename e fmt, outE)] := by
  have hfilter : List.filter (fun p => isImageFile p) [a, b, c, d, e] =
      [a, b, c, d, e] := by
    simp [List.filter, hfa, hfb, hfc, hfd, hfe]
  have hpipe : processImagesToImages decode save powf adjustments fmt dir
      none none [a, b, c, d, e] =
      .ok [processFrame decode save powf adjustments fmt dir 0 5 0 a,
           processFrame decode save powf adjustments fmt dir 0 5 1 b,
           processFrame decode save powf adjustments fmt dir 0 5 2 c,
           processFrame decode save powf adjustments fmt dir 0 5 3 d,
           processFrame decode save powf adjustments fmt dir 0 5 4 e] := by
    simp only [processImagesToImages, hfilter, List.Sorted.insertionSort_eq hsorted]
    norm_num [List.enum, List.enumFrom]
  have hFa : ∃ outA, applyAdjustments powf imgA adjustments 0 5 = .ok outA ∧
      processFrame decode save powf adjustments fmt dir 0 5 0 a =
        .ok (dir ++ "/" ++ generateOutputFilename a fmt, outA) := by
    simp only [processFrame, hda, applyAdjustments, hcrop, hsave]
    exact ⟨_, rfl, rfl⟩
  have hFb : ∃ outB, applyAdjustments powf imgB adjustments 1 5 = .ok outB ∧
      processFrame decode save powf adjustments fmt dir 0 5 1 b =
        .ok (dir ++ "/" ++ generateOutputFilename b fmt, outB) := by
    simp only [processFrame, hdb, applyAdjustments, hcrop, hsave]
    exact ⟨_, rfl, rfl⟩
  have hFc : processFrame decode save powf adjustments fmt dir 0 5 2 c =
      .error ⟨"Failed to open image: " ++ errMsg⟩ := by
    simp only [processFrame, hdc]
  have hFd : ∃ outD, applyAdjustments powf imgD adjustments 3 5 = .ok outD ∧
      processFrame decode save powf adjustments fmt dir 0 5 3 d =
        .ok (dir ++ "/" ++ generateOutputFilename d fmt, outD) := by
    simp only [processFrame, hdd, applyAdjustments, hcrop, hsave]
    exact ⟨_, rfl, rfl⟩
  have hFe : ∃ outE, applyAdjustments powf imgE adjustments 4 5 = .ok outE ∧
      processFrame decode save powf adjustments fmt dir 0 5 4 e =
        .ok (dir ++ "/" ++ generateOutputFilename e fmt, outE) := by
    simp only [processFrame, hde, applyAdjustments, hcrop, hsave]
    exact ⟨_, rfl, rfl⟩
  obtain ⟨outA, hA1, hA2⟩ := hFa
  obtain ⟨outB, hB1, hB2⟩ := hFb
  obtain ⟨outD, hD1, hD2⟩ := hFd
  obtain ⟨outE, hE1, hE2⟩ := hFe
  refine ⟨_, hpipe, ?_, ?_, ?_, outA, outB, outD, outE, hA1, hB1, hD1, hE1, ?_⟩
  · simp
  · rw [hA2, hB2, hFc, hD2, hE2]
    simp [perFrameErrors]
  · rw [hA2, hB2, hFc, hD2, hE2]
    simp [runResult, List.findSome?]
  · rw [hA2, hB2, hFc, hD2, hE2]
    simp [writtenOutputs]

/-- Witness for the C5 theorem: five concrete sorted file names with
`c.jpg` failing to decode. -/
theorem one_corrupt_frame_isolated_witness :
    ∃ results,
      processImagesToImages
        (fun p => if p = "c.jpg" then .error "corrupt"
          else .ok ⟨1, 1, fun _ _ => (0, 0, 0)⟩)
        (fun _ _ => .ok ()) (fun _ _ => .fin 1) defaultAdjustments
        "png" "out" none none
        ["a.jpg", "b.jpg", "c.jpg", "d.jpg", "e.jpg"] = .ok results ∧
      results.length = 5 ∧
      perFrameErrors results = [⟨"Failed to open image: " ++ "corrupt"⟩] ∧
      runResult results = .error ⟨"Failed to open image: " ++ "corrupt"⟩ ∧
      ∃ outA outB outD outE,
        applyAdjustments (fun _ _ => .fin 1) ⟨1, 1, fun _ _ => (0, 0, 0)⟩
          defaultAdjustments 0 5 = .ok outA ∧
        applyAdjustments (fun _ _ => .fin 1) ⟨1, 1, fun _ _ => (0, 0, 0)⟩
          defaultAdjustments 1 5 = .ok outB ∧
        applyAdjustments (fun _ _ => .fin 1) ⟨1, 1, fun _ _ => (0, 0, 0)⟩
          defaultAdjustments 3 5 = .ok outD ∧
        applyAdjustments (fun _ _ => .fin 1) ⟨1, 1, fun _ _ => (0, 0, 0)⟩
          defaultAdjustments 4 5 = .ok outE ∧
        writtenOutputs results =
          [("out" ++ "/" ++ generateOutputFilename "a.jpg" "png", outA),
           ("out" ++ "/" ++ generateOutputFilename "b.jpg" "png", outB),
           ("out" ++ "/" ++ generateOutputFilename "d.jpg" "png", outD),
           ("out" ++ "/" ++ generateOutputFilename "e.jpg" "png", outE)] :=
  one_corrupt_frame_isolated
    (fun p => if p = "c.jpg" then .error "corrupt"
      else .ok ⟨1, 1, fun _ _ => (0, 0, 0)⟩)
    (fun _ _ => .ok ()) (fun _ _ => .fin 1) defaultAdjustments
    "png" "out" "a.jpg" "b.jpg" "c.jpg" "d.jpg" "e.jpg" "corrupt"
    ⟨1, 1, fun _ _ => (0, 0, 0)⟩ ⟨1, 1, fun _ _ => (0, 0, 0)⟩
    ⟨1, 1, fun _ _ => (0, 0, 0)⟩ ⟨1, 1, fun _ _ => (0, 0, 0)⟩
    (by decide) (by decide) (by decide) (by decide) (by decide) (by decide)
    rfl rfl rfl rfl rfl rfl (fun _ _ => rfl)

/-- Claim C6: frame-range selection with `start = 2`, `end = 2` on a sorted
5-file sequence processes exactly one frame, and that frame's adjustments
are interpolated at its *original* position — `apply_adjustments` is
called with frame index `2` and `total_frames = 5` (not index 0 of 1),
because the task index is offset by `start_idx` and the interpolation
span is the unfiltered file count. -/
theorem frame_range_preserves_global_index
    (decode : String → Except String Image)
    (save : String → Image → Except String Unit)
    (powf : FNum → FNum → FNum) (adjustments : ImageAdjustments)
    (fmt dir : String) (a b c d e : String) (imgC : Image)
    (hsorted : List.Sorted pathLe [a, b, c, d, e])
    (hfa : isImageFile a = true) (hfb : isImageFile b = true)
    (hfc : isImageFile c = true) (hfd : isImageFile d = true)
    (hfe : isImageFile e = true)
    (hdc : decode c = .ok imgC)
    (hcrop : adjustments.crop = none)
    (hsave : ∀ p i, save p i = .ok ()) :
    ∃ out,
      applyAdjustments powf imgC adjustments 2 5 = .ok out ∧
      processImagesToImages decode save powf adjustments fmt dir
        (some 2) (some 2) [a, b, c, d, e] =
        .ok [.ok (dir ++ "/" ++ generateOutputFilename c fmt, out)] := by
  have hfilter : List.filter (fun p => isImageFile p) [a, b, c, d, e] =
      [a, b, c, d, e] := by
    simp [List.filter, hfa, hfb, hfc, hfd, hfe]
  have hpipe : processImagesToImages decode save powf adjustments fmt dir
      (some 2) (some 2) [a, b, c, d, e] =
      .ok [processFrame decode save powf adjustments fmt dir 2 5 0 c] := by
    simp only [processImagesToImages, hfilter, List.Sorted.insertionSort_eq hsorted]
    norm_num [List.enum, List.enumFrom]
  have hF : ∃ out, applyAdjustments powf imgC adjustments 2 5 = .ok out ∧
      processFrame decode save powf adjustments fmt dir 2 5 0 c =
        .ok (dir ++ "/" ++ generateOutputFilename c fmt, out) := by
    simp only [processFrame, hdc, applyAdjustments, hcrop, hsave]
    exact ⟨_, rfl, rfl⟩
  obtain ⟨out, h1, h2⟩ := hF
  refine ⟨out, h1, ?_⟩
  rw [hpipe, h2]

/-- Witness for the C6 theorem on five concrete sorted file names. -/
theorem frame_range_preserves_global_index_witness :
    ∃ out,
      applyAdjustments (fun _ _ => .fin 1) ⟨1, 1, fun _ _ => (0, 0, 0)⟩
        defaultAdjustments 2 5 = .ok out ∧
      processImagesToImages (fun _ => .ok ⟨1, 1, fun _ _ => (0, 0, 0)⟩)
        (fun _ _ => .ok ()) (fun _ _ => .fin 1) defaultAdjustments
        "png" "out" (some 2) (some 2)
        ["a.jpg", "b.jpg", "c.jpg", "d.jpg", "e.jpg"] =
        .ok [.ok ("out" ++ "/" ++ generateOutputFilename "c.jpg" "png", out)] :=
  frame_range_preserves_global_index
    (fun _ => .ok ⟨1, 1, fun _ _ => (0, 0, 0)⟩) (fun _ _ => .ok ())
    (fun _ _ => .fin 1) defaultAdjustments "png" "out"
    "a.jpg" "b.jpg" "c.jpg" "d.jpg" "e.jpg" ⟨1, 1, fun _ _ => (0, 0, 0)⟩
    (by decide) (by decide) (by decide) (by decide) (by decide) (by decide)
    rfl rfl (fun _ _ => rfl)
